import Mathlib

set_option linter.unusedVariables false

/-!
Verification of the CMSC722 Pyhop warehouse-robot planner.

The repository contains HTN planning domains for a warehouse robot
(`final_warehouse_robot.py`, `simple_warehouse_robot.py`, ...) built on a
Pyhop-style HTN engine.  The domain code (rigid relations, helper
functions, operators and task methods) is embedded below directly from
the Python source.  The planning engine itself (`pyhop.pyhop`, i.e.
seek-plan) is not among the given source files, so it is modelled from
the specification's description of the depth-first decomposition search.

Python dictionaries keyed by strings are modelled as total functions from
`String` (state relations `loc`, `cargo`, `battery`) or as association
lists (the rigid-relation tables, container-destination maps), and the
`False` return value of fallible Python functions is modelled as `none`.
-/

/-- Rigid relations: the static type table and the adjacency table.
`types` models the Python dict from type name to list of identifiers,
`adjacent` models the key set of the Python adjacency dict (its values
are always `True` and are never read). -/
structure Rigid where
  types : List (String × List String)
  adjacent : List (String × String)
deriving DecidableEq

/-- Mutable world state: the `loc`, `cargo` and `battery` dictionaries of
the Python `State` object, modelled as total maps. -/
structure WState where
  loc : String → String
  cargo : String → List String
  battery : String → Int

/-- A full world: the (in principle mutable) rigid-relation tables
together with the mutable state. -/
structure World where
  rigid : Rigid
  st : WState

/-- Pointwise update of a string-keyed map, modelling `d[k] = v`. -/
def upd {α : Type} (f : String → α) (k : String) (v : α) : String → α :=
  fun x => if x = k then v else f x

/-- `is_adjacent` from the source: membership of either orientation of the
pair in the adjacency table. -/
def is_adjacent (rr : Rigid) (room_x room_y : String) : Bool :=
  rr.adjacent.contains (room_x, room_y) || rr.adjacent.contains (room_y, room_x)

/-- `is_a` from the source: membership in the type table's entry. -/
def is_a (rr : Rigid) (v ty : String) : Bool :=
  ((rr.types.lookup ty).getD []).contains v

/-- `is_at` from the source. -/
def is_at (state : WState) (robot room : String) : Bool :=
  room == state.loc robot

/-- `is_charging_station` from the source. -/
def is_charging_station (rr : Rigid) (loc : String) : Bool :=
  ((rr.types.lookup "charging_stations").getD []).contains loc

/-- Insert a key into a Python-dict-ordered key list: a repeated
assignment keeps the original position, a new key is appended. -/
def dinsert (l : List String) (y : String) : List String :=
  if l.contains y then l else l ++ [y]

/-- `G[x][y] = True` on the adjacency graph under construction (creating
the entry for `x` if missing, as the source does). -/
def alSet (G : List (String × List String)) (x y : String) : List (String × List String) :=
  match G with
  | [] => [(x, [y])]
  | (k, v) :: rest => if k = x then (k, dinsert v y) :: rest else (k, v) :: alSet rest x y

/-- The graph-building loop shared by `get_shortest_path` and
`get_all_charging_station`: both orientations of every edge. -/
def buildGraph (adj : List (String × String)) : List (String × List String) :=
  adj.foldl (fun G e => alSet (alSet G e.1 e.2) e.2 e.1) []

/-- `G[node]` (no entry is modelled as no neighbours). -/
def neighbors (G : List (String × List String)) (x : String) : List String :=
  (G.lookup x).getD []

/-- The BFS loop of `get_shortest_path`: `visited` maps each discovered
node to its parent (the start node to `none`); the queue is FIFO and the
loop stops when the target is popped.  The fuel argument bounds the
number of iterations; each node is enqueued at most once, so any fuel
larger than the node count is enough. -/
def bfsLoop (G : List (String × List String)) (tgt : String) :
    Nat → List (String × Option String) → List String → List (String × Option String)
  | 0, visited, _ => visited
  | _ + 1, visited, [] => visited
  | fuel + 1, visited, node :: queue =>
    if node = tgt then visited
    else
      let step := (neighbors G node).foldl
        (fun (p : List (String × Option String) × List String) nb =>
          if (p.1.lookup nb).isSome then p
          else (p.1 ++ [(nb, some node)], p.2 ++ [nb]))
        (visited, queue)
      bfsLoop G tgt fuel step.1 step.2

/-- The parent-chain walk of `get_shortest_path`, collecting the path
backwards from the target until a node with parent `None` is reached. -/
def buildPath (visited : List (String × Option String)) :
    Nat → String → List String → List String
  | 0, _, acc => acc
  | fuel + 1, prev, acc =>
    match (visited.lookup prev).getD none with
    | none => acc
    | some p => buildPath visited fuel p (acc ++ [prev])

/-- `get_shortest_path` from the source: BFS from `start`; on a
disconnected target the Python function returns `False`, modelled as
`none`.  The returned path excludes the start node and ends with the
target (empty when `start = tgt`). -/
def get_shortest_path (rr : Rigid) (start tgt : String) : Option (List String) :=
  let G := buildGraph rr.adjacent
  let visited := bfsLoop G tgt (2 * rr.adjacent.length + 2) [(start, none)] [start]
  match visited.lookup tgt with
  | none => none
  | some _ => some (buildPath visited (visited.length + 1) tgt []).reverse

/-- One BFS expansion step of `get_all_charging_station`: discovered
charging stations are appended in discovery order. -/
def gacsStep (rr : Rigid) (G : List (String × List String)) (node : String)
    (visited queue stations : List String) : List String × List String × List String :=
  (neighbors G node).foldl
    (fun (p : List String × List String × List String) nb =>
      if p.1.contains nb then p
      else (p.1 ++ [nb], p.2.1 ++ [nb],
        if ((rr.types.lookup "charging_stations").getD []).contains nb
        then p.2.2 ++ [nb] else p.2.2))
    (visited, queue, stations)

/-- The BFS loop of `get_all_charging_station`. -/
def gacsLoop (rr : Rigid) (G : List (String × List String)) :
    Nat → List String → List String → List String → List String
  | 0, _, _, stations => stations
  | _ + 1, _, [], stations => stations
  | fuel + 1, visited, node :: queue, stations =>
    let step := gacsStep rr G node visited queue stations
    gacsLoop rr G fuel step.1 step.2.1 step.2.2

/-- `get_all_charging_station` from the source: all charging stations
discovered by a BFS from `loc` (so exactly the reachable ones other than
`loc` itself), in BFS discovery order. -/
def get_all_charging_station (rr : Rigid) (loc : String) : List String :=
  let G := buildGraph rr.adjacent
  gacsLoop rr G (2 * rr.adjacent.length + 2) [loc] [loc] []

/-- `get_closest_charging_station` from the source: `loc` itself when it
is a charging station, otherwise the first BFS-discovered station;
Python's `None` is modelled as `none`. -/
def get_closest_charging_station (rr : Rigid) (loc : String) : Option String :=
  if is_charging_station rr loc then some loc
  else (get_all_charging_station rr loc).head?

/-- `distance` from the source: `len(get_shortest_path(loc1, loc2))`.
When the path is `False` the Python call raises (`len(False)`), so the
result is partial: `none` models that the call does not return. -/
def distance (rr : Rigid) (loc1 loc2 : String) : Option Nat :=
  (get_shortest_path rr loc1 loc2).map List.length

namespace FWR

/-- The rigid relations declared in `final_warehouse_robot.py`. -/
def rigid_relations : Rigid :=
  { types :=
      [("robot", ["R1"]),
       ("object", ["c1", "c2", "c3"]),
       ("loc", ["room1", "room2", "room3", "room4", "room5", "room6", "room7", "room8", "room9"]),
       ("charging_stations", ["room3", "room6", "room9"])],
    adjacent :=
      [("room1", "room2"), ("room2", "room3"), ("room2", "room4"), ("room2", "room5"),
       ("room5", "room6"), ("room3", "room4"), ("room3", "room7"), ("room7", "room8"),
       ("room8", "room9"), ("room6", "room9")] }

/-- Battery cost of one move, from the source. -/
def COST_PER_MOVE : Int := 20

/-- Full battery capacity, from the source. -/
def FULL_BATTERY : Int := 100

/-- `LIMIT = len(rigid_relations.types['charging_stations'])`. -/
def LIMIT : Nat := ((rigid_relations.types.lookup "charging_stations").getD []).length

/-- The initial state `state0` of `final_warehouse_robot.py`. -/
def state0 : WState :=
  { loc := fun x =>
      if x = "R1" then "room1"
      else if x = "c1" then "room4"
      else if x = "c2" then "room6"
      else if x = "c3" then "room8"
      else "",
    cargo := fun _ => [],
    battery := fun x => if x = "R1" then 100 else 0 }

/-- The initial world of `final_warehouse_robot.py`. -/
def world0 : World := { rigid := rigid_relations, st := state0 }

/-- The `move` operator: type check, adjacency, current location and a
strict battery check; on failure the Python function returns `False`
without touching the state, modelled as `none`. -/
def move (w : World) (R start_loc end_loc : String) : Option World :=
  let type_check := is_a w.rigid R "robot" && is_a w.rigid start_loc "loc"
    && is_a w.rigid end_loc "loc"
  if type_check && is_adjacent w.rigid start_loc end_loc && is_at w.st R start_loc
      && decide (w.st.battery R > COST_PER_MOVE) then
    some { w with st := { w.st with
      loc := upd w.st.loc R end_loc,
      battery := upd w.st.battery R (w.st.battery R - COST_PER_MOVE) } }
  else none

/-- The `pickup` operator: only requires the type check and an empty
cargo list; it appends `c` to the cargo and sets `loc[c] = R`. -/
def pickup (w : World) (R c : String) : Option World :=
  let type_check := is_a w.rigid R "robot" && is_a w.rigid c "object"
  if type_check && decide ((w.st.cargo R).length = 0) then
    some { w with st := { w.st with
      cargo := upd w.st.cargo R (w.st.cargo R ++ [c]),
      loc := upd w.st.loc c R } }
  else none

/-- The `drop` operator: requires `loc[c] = R`; it places `c` at the
robot's location and removes it from the cargo list. -/
def drop (w : World) (R c : String) : Option World :=
  let type_check := is_a w.rigid R "robot" && is_a w.rigid c "object"
  if type_check && (w.st.loc c == R) then
    some { w with st := { w.st with
      loc := upd w.st.loc c (w.st.loc R),
      cargo := upd w.st.cargo R ((w.st.cargo R).erase c) } }
  else none

/-- The `recharge` operator: only at a charging station; restores the
battery to `FULL_BATTERY`. -/
def recharge (w : World) (R : String) : Option World :=
  if is_a w.rigid R "robot" && is_charging_station w.rigid (w.st.loc R) then
    some { w with st := { w.st with battery := upd w.st.battery R FULL_BATTERY } }
  else none

/-- Grounded tasks of the `final_warehouse_robot.py` domain: the four
atomic operator tasks and the compound tasks, with the argument shapes
used by the source (container-destination maps as association lists). -/
inductive Task where
  | move (R start_loc end_loc : String)
  | pickup (R c : String)
  | drop (R c : String)
  | recharge (R : String)
  | transport_all (R : String) (cdm : List (String × String))
  | transport_all_order (R : String) (containers : List String)
      (cdm : List (String × String)) (i : Nat)
  | transport (R c dest : String)
  | travel (R dest : String) (excluded_stations : List String)
  | travel_with_wrapper (R dest : String) (i limit : Nat)
  | travel_with (R dest : String) (i : Nat) (excluded_stations : List String)
  | travel_via (R dest station : String) (other_stations excluded_stations : List String)
      (i : Nat)
deriving DecidableEq

/-- Stable insertion of an element into a key-sorted list: the element
goes after every element whose key is less than or equal, matching the
stability of Python's `list.sort`. -/
def insKey (key : String → Nat) (x : String) : List String → List String
  | [] => [x]
  | y :: ys => if key y ≤ key x then y :: insKey key x ys else x :: y :: ys

/-- Stable sort by a numeric key (Python `list.sort(key=...)`). -/
def sortByKey (key : String → Nat) (l : List String) : List String :=
  l.foldl (fun acc x => insKey key x acc) []

/-- Method `transport_all1`: if the robot already carries an object that
occurs in the map, transport it first.  Methods are state-passing pairs
whose second component is the state object after the call (the source
methods contain no assignment to the state, so it is the input). -/
def transport_all1 (w : World) (R : String) (cdm : List (String × String)) :
    Option (List Task) × World :=
  match w.st.cargo R with
  | c0 :: _ =>
    if (cdm.lookup c0).isSome then
      (some [Task.transport R c0 ((cdm.lookup c0).getD ""),
             Task.transport_all R (cdm.eraseP (fun p => p.1 == c0))], w)
    else (none, w)
  | [] => (none, w)

/-- Method `transport_all2`: with empty cargo, recommend the order that
drops the container closest to the robot first (stable sort by BFS
distance). -/
def transport_all2 (w : World) (R : String) (cdm : List (String × String)) :
    Option (List Task) × World :=
  if decide ((w.st.cargo R).length = 0) && decide (cdm.length > 0) then
    (some [Task.transport_all_order R
        (sortByKey (fun c => (distance w.rigid (w.st.loc R) (w.st.loc c)).getD 0)
          (cdm.map (·.1)))
        cdm 0], w)
  else (none, w)

/-- Method `transport_all3`: nothing left to drop off. -/
def transport_all3 (w : World) (R : String) (cdm : List (String × String)) :
    Option (List Task) × World :=
  if decide (cdm.length = 0) then (some [], w) else (none, w)

/-- Method `transport_all_order1`: transport `containers[i]` first. -/
def transport_all_order1 (w : World) (R : String) (containers : List String)
    (cdm : List (String × String)) (i : Nat) : Option (List Task) × World :=
  if decide ((w.st.cargo R).length = 0) && decide (cdm.length > 0)
      && decide (i < cdm.length) then
    (some [Task.transport R (containers.getD i "") ((cdm.lookup (containers.getD i "")).getD ""),
           Task.transport_all R (cdm.eraseP (fun p => p.1 == containers.getD i ""))], w)
  else (none, w)

/-- Method `transport_all_order2`: try position `i + 1` instead. -/
def transport_all_order2 (w : World) (R : String) (containers : List String)
    (cdm : List (String × String)) (i : Nat) : Option (List Task) × World :=
  if decide ((w.st.cargo R).length = 0) && decide (cdm.length > 0)
      && decide (i < cdm.length) then
    (some [Task.transport_all_order R containers cdm (i + 1)], w)
  else (none, w)

/-- Method `transport1`: the container has not been picked up yet. -/
def transport1 (w : World) (R c dest : String) : Option (List Task) × World :=
  if (w.st.loc c != dest) && is_a w.rigid (w.st.loc c) "loc" then
    (some [Task.travel R (w.st.loc c) [w.st.loc c], Task.pickup R c,
           Task.travel R dest [dest], Task.drop R c], w)
  else (none, w)

/-- Method `transport2`: the container is already loaded onto the robot. -/
def transport2 (w : World) (R c dest : String) : Option (List Task) × World :=
  if (w.st.loc c != dest) && (w.st.loc c == R) then
    (some [Task.travel R dest [dest], Task.drop R c], w)
  else (none, w)

/-- Method `transport3`: the container is already at its destination. -/
def transport3 (w : World) (R c dest : String) : Option (List Task) × World :=
  if w.st.loc c == dest then (some [], w) else (none, w)

/-- Method `travel_default`: the robot is already at the destination. -/
def travel_default (w : World) (R dest : String) (excluded_stations : List String) :
    Option (List Task) × World :=
  if w.st.loc R == dest then (some [], w) else (none, w)

/-- Method `travel1`: delegate to the `travel_with_wrapper` task. -/
def travel1 (w : World) (R dest : String) (excluded_stations : List String) :
    Option (List Task) × World :=
  (some [Task.travel_with_wrapper R dest 0 LIMIT], w)

/-- Method `travel_with_wrapper1`: try exactly `i` recharges. -/
def travel_with_wrapper1 (w : World) (R dest : String) (i limit : Nat) :
    Option (List Task) × World :=
  if decide (i ≤ limit) then (some [Task.travel_with R dest i []], w) else (none, w)

/-- Method `travel_with_wrapper2`: stretch the recharge count by one. -/
def travel_with_wrapper2 (w : World) (R dest : String) (i limit : Nat) :
    Option (List Task) × World :=
  if decide (i < limit) then (some [Task.travel_with_wrapper R dest (i + 1) limit], w)
  else (none, w)

/-- The battery estimate of method `travel_with1`:
`COST_PER_MOVE * (distance(loc[R], dest) + distance(dest, closest station))`.
When either distance does not return (unreachable target, `len(False)`)
or no charging station is reachable from `dest` (`distance(dest, None)`),
the Python expression raises, modelled as `none`. -/
def travel_with1_estimate (rr : Rigid) (s : WState) (R dest : String) : Option Int :=
  match distance rr (s.loc R) dest, get_closest_charging_station rr dest with
  | some d1, some cs =>
    match distance rr dest cs with
    | some d2 => some (COST_PER_MOVE * ((d1 : Int) + (d2 : Int)))
    | none => none
  | _, _ => none

/-- Emit the move sequence along a BFS path, as the loop in
`travel_with1` does. -/
def movesAlong (R : String) : String → List String → List Task
  | _, [] => []
  | prev, loc :: rest => Task.move R prev loc :: movesAlong R loc rest

/-- Method `travel_with1`: with `i = 0`, travel directly along the
shortest path, provided the battery can also still reach a charging
station afterwards. -/
def travel_with1 (w : World) (R dest : String) (i : Nat) (excluded_stations : List String) :
    Option (List Task) × World :=
  if decide (i = 0) then
    let enough_battery :=
      match travel_with1_estimate w.rigid w.st R dest with
      | some e => decide (w.st.battery R > e)
      | none => false
    if (w.st.loc R != dest) && is_a w.rigid dest "loc" && enough_battery then
      match get_shortest_path w.rigid (w.st.loc R) dest with
      | some path => (some (movesAlong R (w.st.loc R) path), w)
      | none => (none, w)
    else (none, w)
  else (none, w)

/-- Method `travel_with2`: with `i > 0`, travel via the closest
not-yet-excluded charging station. -/
def travel_with2 (w : World) (R dest : String) (i : Nat) (excluded_stations : List String) :
    Option (List Task) × World :=
  if decide (i > 0) then
    let filtered_stations := (get_all_charging_station w.rigid dest).filter
      (fun s => !(excluded_stations.contains s))
    if (w.st.loc R != dest) && is_a w.rigid dest "loc"
        && decide (filtered_stations.length > 0) then
      (some [Task.travel_via R dest (filtered_stations.headD "") filtered_stations.tail
             excluded_stations i], w)
    else (none, w)
  else (none, w)

/-- The battery estimate of method `travel_via1`, with `FULL_BATTERY` on
the left of the comparison; partial for the same reasons as
`travel_with1_estimate`. -/
def travel_via1_enough (rr : Rigid) (station dest : String) : Bool :=
  match distance rr station dest, get_closest_charging_station rr dest with
  | some d1, some cs =>
    match distance rr dest cs with
    | some d2 => decide (FULL_BATTERY > COST_PER_MOVE * ((d1 : Int) + (d2 : Int)))
    | none => false
  | _, _ => false

/-- Method `travel_via1`: reach `station` with `i - 1` recharges,
recharge there, then travel directly to `dest`. -/
def travel_via1 (w : World) (R dest station : String)
    (other_stations excluded_stations : List String) (i : Nat) :
    Option (List Task) × World :=
  if decide (i > 0) && is_a w.rigid station "loc" && travel_via1_enough w.rigid station dest then
    (some [Task.travel_with R station (i - 1) (excluded_stations ++ [station]),
           Task.recharge R,
           Task.travel_with R dest 0 (excluded_stations ++ [station])], w)
  else (none, w)

/-- Method `travel_via2`: try the next candidate last station. -/
def travel_via2 (w : World) (R dest station : String)
    (other_stations excluded_stations : List String) (i : Nat) :
    Option (List Task) × World :=
  if decide (i > 0) && decide (other_stations.length > 0) then
    (some [Task.travel_via R dest (other_stations.headD "") other_stations.tail
           (excluded_stations ++ [station]) i], w)
  else (none, w)

/-- Which tasks are atomic (operator) tasks. -/
def isAtomic : Task → Bool
  | .move .. | .pickup .. | .drop .. | .recharge .. => true
  | _ => false

/-- Dispatch of an atomic task to its registered operator (as in
`pyhop.declare_operators(move, pickup, drop, recharge)`). -/
def applyOp (w : World) : Task → Option World
  | .move R a b => move w R a b
  | .pickup R c => pickup w R c
  | .drop R c => drop w R c
  | .recharge R => recharge w R
  | _ => none

/-- The ordered method table of the domain: for each compound task the
results of its declared methods, in declaration order. -/
def methodResults (w : World) : Task → List (Option (List Task))
  | .transport_all R cdm =>
    [(transport_all1 w R cdm).1, (transport_all2 w R cdm).1, (transport_all3 w R cdm).1]
  | .transport_all_order R cs cdm i =>
    [(transport_all_order1 w R cs cdm i).1, (transport_all_order2 w R cs cdm i).1]
  | .transport R c dest =>
    [(transport1 w R c dest).1, (transport2 w R c dest).1, (transport3 w R c dest).1]
  | .travel R dest ex =>
    [(travel_default w R dest ex).1, (travel1 w R dest ex).1]
  | .travel_with_wrapper R dest i limit =>
    [(travel_with_wrapper1 w R dest i limit).1, (travel_with_wrapper2 w R dest i limit).1]
  | .travel_with R dest i ex =>
    [(travel_with1 w R dest i ex).1, (travel_with2 w R dest i ex).1]
  | .travel_via R dest st os ex i =>
    [(travel_via1 w R dest st os ex i).1, (travel_via2 w R dest st os ex i).1]
  | _ => []

end FWR

/-- Modelled from the spec: a planning domain as consumed by the engine
(`pyhop.py` is not among the given source files) — the atomic/compound
split, the operator dispatch, and the ordered method table. -/
structure Domain (τ : Type) where
  isAtomic : τ → Bool
  applyOp : World → τ → Option World
  methodResults : World → τ → List (Option (List τ))

/-- Modelled from the spec: the method loop of seek-plan.  Each method
result is tried in declaration order; a failed method (or a method whose
decomposition leads to a dead end) is followed by the next one on the
same state; the first recursive success wins. -/
def tryMethods (k : List τ → Option (List τ)) (rest : List τ) :
    List (Option (List τ)) → Option (List τ)
  | [] => none
  | none :: ms => tryMethods k rest ms
  | some sub :: ms =>
    match k (sub ++ rest) with
    | some p => some p
    | none => tryMethods k rest ms

/-- Modelled from the spec: the depth-first decomposition search
(`seek_plan`, reached through `pyhop.pyhop`, which is not among the given
source files).  An empty network is the empty plan; an atomic head is
applied (failure fails the branch) and prepended to the recursive plan; a
compound head is expanded through its methods in order with backtracking.
The fuel bounds the recursion depth (the Python search is unbounded); a
large enough fuel leaves the result unchanged. -/
def seekPlan (D : Domain τ) : Nat → World → List τ → Option (List τ)
  | 0, _, _ => none
  | _ + 1, _, [] => some []
  | fuel + 1, w, t :: rest =>
    if D.isAtomic t then
      match D.applyOp w t with
      | none => none
      | some w2 =>
        match seekPlan D fuel w2 rest with
        | none => none
        | some p => some (t :: p)
    else
      tryMethods (fun net => seekPlan D fuel w net) rest (D.methodResults w t)

/-- Modelled from the spec: replaying a returned plan applies its
operators in order to the initial state; any operator failure aborts. -/
def execPlan (D : Domain τ) (w : World) : List τ → Option World
  | [] => some w
  | t :: ts =>
    match D.applyOp w t with
    | none => none
    | some w2 => execPlan D w2 ts

namespace FWR

/-- The `final_warehouse_robot.py` domain, assembled from its declared
operators and methods. -/
def domain : Domain Task :=
  { isAtomic := isAtomic, applyOp := applyOp, methodResults := methodResults }

/-- Replay a plan while checking, at each `move` step, that the battery
strictly exceeds the per-move cost at the point of execution. -/
def movesBatteryOk (w : World) : List Task → Bool
  | [] => true
  | t :: ts =>
    match applyOp w t with
    | none => false
    | some w2 =>
      (match t with
       | .move R _ _ => decide (w.st.battery R > COST_PER_MOVE)
       | _ => true) && movesBatteryOk w2 ts

end FWR

namespace SWR

/-- The rigid relations declared in `simple_warehouse_robot.py`. -/
def rigid_relations : Rigid :=
  { types :=
      [("robot", ["R1"]),
       ("object", ["c1"]),
       ("loc", ["room1", "room2", "room3", "room4"])],
    adjacent := [("room1", "room2"), ("room1", "room3"), ("room2", "room4")] }

/-- The initial state `state0` of `simple_warehouse_robot.py`: robot at
`room1` with battery 50, package `c1` at `room3`. -/
def state0 : WState :=
  { loc := fun x => if x = "R1" then "room1" else if x = "c1" then "room3" else "",
    cargo := fun _ => [],
    battery := fun x => if x = "R1" then 50 else 0 }

/-- The initial world of `simple_warehouse_robot.py`. -/
def world0 : World := { rigid := rigid_relations, st := state0 }

/-- Grounded tasks of the `simple_warehouse_robot.py` domain. -/
inductive Task where
  | move (R start_loc end_loc : String)
  | pickup (R c : String)
  | drop (R c : String)
  | recharge (R : String)
  | transport (R c dest : String)
  | travel (R dest : String)
  | move_next (R loc next_loc : String)
deriving DecidableEq

/-- The `move` operator of the simple domain: per-move cost 25. -/
def move (w : World) (R start_loc end_loc : String) : Option World :=
  let type_check := is_a w.rigid R "robot" && is_a w.rigid start_loc "loc"
    && is_a w.rigid end_loc "loc"
  if type_check && is_adjacent w.rigid start_loc end_loc && is_at w.st R start_loc
      && decide (w.st.battery R > 25) then
    some { w with st := { w.st with
      loc := upd w.st.loc R end_loc,
      battery := upd w.st.battery R (w.st.battery R - 25) } }
  else none

/-- The `pickup` operator of the simple domain. -/
def pickup (w : World) (R c : String) : Option World :=
  let type_check := is_a w.rigid R "robot" && is_a w.rigid c "object"
  if type_check && decide ((w.st.cargo R).length = 0) then
    some { w with st := { w.st with
      cargo := upd w.st.cargo R (w.st.cargo R ++ [c]),
      loc := upd w.st.loc c R } }
  else none

/-- The `drop` operator of the simple domain. -/
def drop (w : World) (R c : String) : Option World :=
  let type_check := is_a w.rigid R "robot" && is_a w.rigid c "object"
  if type_check && (w.st.loc c == R) then
    some { w with st := { w.st with
      loc := upd w.st.loc c (w.st.loc R),
      cargo := upd w.st.cargo R ((w.st.cargo R).erase c) } }
  else none

/-- The `recharge` operator of the simple domain: available everywhere,
restores the battery to 100. -/
def recharge (w : World) (R : String) : Option World :=
  if is_a w.rigid R "robot" then
    some { w with st := { w.st with battery := upd w.st.battery R 100 } }
  else none

/-- Method `transport1` of the simple domain. -/
def transport1 (w : World) (R c dest : String) : Option (List Task) :=
  if (w.st.loc c != dest) && is_a w.rigid (w.st.loc c) "loc" then
    some [Task.travel R (w.st.loc c), Task.pickup R c, Task.travel R dest, Task.drop R c]
  else none

/-- Method `transport2` of the simple domain. -/
def transport2 (w : World) (R c dest : String) : Option (List Task) :=
  if (w.st.loc c != dest) && (w.st.loc c == R) then
    some [Task.travel R dest, Task.drop R c]
  else none

/-- Method `transport3` of the simple domain. -/
def transport3 (w : World) (R c dest : String) : Option (List Task) :=
  if w.st.loc c == dest then some [] else none

/-- Emit the `move_next` sequence along a BFS path, as the loop in
`travel1` does. -/
def moveNextAlong (R : String) : String → List String → List Task
  | _, [] => []
  | prev, loc :: rest => Task.move_next R prev loc :: moveNextAlong R loc rest

/-- Method `travel1` of the simple domain: one `move_next` per step of
the shortest path. -/
def travel1 (w : World) (R dest : String) : Option (List Task) :=
  if (w.st.loc R != dest) && is_a w.rigid dest "loc" then
    match get_shortest_path w.rigid (w.st.loc R) dest with
    | some path => some (moveNextAlong R (w.st.loc R) path)
    | none => none
  else none

/-- Method `travel2` of the simple domain: already at the destination. -/
def travel2 (w : World) (R dest : String) : Option (List Task) :=
  if w.st.loc R == dest then some [] else none

/-- Method `move_next1` of the simple domain: enough battery, move. -/
def move_next1 (w : World) (R loc next_loc : String) : Option (List Task) :=
  if is_adjacent w.rigid loc next_loc && decide (w.st.battery R > 25) then
    some [Task.move R loc next_loc]
  else none

/-- Method `move_next2` of the simple domain: recharge, then move. -/
def move_next2 (w : World) (R loc next_loc : String) : Option (List Task) :=
  if is_adjacent w.rigid loc next_loc && decide (w.st.battery R ≤ 25) then
    some [Task.recharge R, Task.move R loc next_loc]
  else none

/-- Atomic tasks of the simple domain. -/
def isAtomic : Task → Bool
  | .move .. | .pickup .. | .drop .. | .recharge .. => true
  | _ => false

/-- Operator dispatch of the simple domain. -/
def applyOp (w : World) : Task → Option World
  | .move R a b => move w R a b
  | .pickup R c => pickup w R c
  | .drop R c => drop w R c
  | .recharge R => recharge w R
  | _ => none

/-- The ordered method table of the simple domain (declaration order:
`transport1, transport2, transport3`; `travel1, travel2`;
`move_next1, move_next2`). -/
def methodResults (w : World) : Task → List (Option (List Task))
  | .transport R c dest =>
    [transport1 w R c dest, transport2 w R c dest, transport3 w R c dest]
  | .travel R dest => [travel1 w R dest, travel2 w R dest]
  | .move_next R a b => [move_next1 w R a b, move_next2 w R a b]
  | _ => []

/-- The `simple_warehouse_robot.py` domain. -/
def domain : Domain Task :=
  { isAtomic := isAtomic, applyOp := applyOp, methodResults := methodResults }

end SWR

/-- Nodes of an adjacency table, in first-appearance order. -/
def nodesOf (adj : List (String × String)) : List String :=
  adj.foldl (fun acc e => dinsert (dinsert acc e.1) e.2) []

/-- Symmetric adjacency test on a raw edge list. -/
def adjacentTo (adj : List (String × String)) (x y : String) : Bool :=
  adj.contains (x, y) || adj.contains (y, x)

/-- One expansion of a distance ball: add every graph node adjacent to
the ball. -/
def ballStep (adj : List (String × String)) (nodes : List String) : List String :=
  nodes ++ ((nodesOf adj).filter
    (fun y => !(nodes.contains y) && nodes.any (fun x => adjacentTo adj x y)))

/-- The set of nodes within `k` edges of `src` in the undirected graph
described by `adj`. -/
def ballIn (adj : List (String × String)) : Nat → String → List String
  | 0, src => [src]
  | k + 1, src => ballStep adj (ballIn adj k src)

/-- Reachability within `bound` edges. -/
def specReachable (adj : List (String × String)) (bound : Nat) (src tgt : String) : Bool :=
  (ballIn adj bound src).contains tgt

/-- Modelled from the spec: the number of edges on a shortest path from
`src` to `tgt` — the least `k ≤ bound` such that `tgt` lies within `k`
edges of `src` (`none` when `tgt` is unreachable within `bound` edges).
Used as the independent reference value for the claims about
`distance` and `get_all_charging_station`. -/
def specShortestDist (adj : List (String × String)) (src tgt : String) (bound : Nat) :
    Option Nat :=
  (List.range (bound + 1)).find? (fun k => (ballIn adj k src).contains tgt)

/-- Non-decreasing order with respect to a numeric key. -/
def sortedByKey (key : String → Nat) : List String → Bool
  | [] => true
  | [_] => true
  | x :: y :: rest => decide (key x ≤ key y) && sortedByKey key (y :: rest)

/-- The locations of the `final_warehouse_robot.py` graph. -/
def fwrLocs : List String :=
  (FWR.rigid_relations.types.lookup "loc").getD []

/-- The charging stations of the `final_warehouse_robot.py` graph. -/
def fwrStations : List String :=
  (FWR.rigid_relations.types.lookup "charging_stations").getD []

/-- Exhaustive check, for one source location, that
`get_all_charging_station` returns exactly the reachable charging
stations other than the location itself, that every returned entry is a
charging station, and that the list is sorted by non-decreasing
shortest-path distance. -/
def gacsCheck (loc : String) : Bool :=
  let res := get_all_charging_station FWR.rigid_relations loc
  let adj := FWR.rigid_relations.adjacent
  (fwrStations.all fun st =>
    res.contains st == (st != loc && specReachable adj 9 loc st)) &&
  (res.all fun st => fwrStations.contains st) &&
  sortedByKey (fun st => (specShortestDist adj loc st 9).getD 99) res

/-- Exhaustive check, for one source location, that
`get_closest_charging_station` returns the location itself when it is a
charging station and otherwise a reachable charging station of minimal
shortest-path distance (`none` exactly when no station is reachable). -/
def gccsCheck (loc : String) : Bool :=
  let adj := FWR.rigid_relations.adjacent
  match get_closest_charging_station FWR.rigid_relations loc with
  | some st =>
    fwrStations.contains st && specReachable adj 9 loc st &&
    (fwrStations.all fun st2 => !(specReachable adj 9 loc st2) ||
      decide ((specShortestDist adj loc st 9).getD 99 ≤ (specShortestDist adj loc st2 9).getD 99)) &&
    (!(is_charging_station FWR.rigid_relations loc) || st == loc)
  | none => fwrStations.all fun st2 => !(specReachable adj 9 loc st2)

/-- A disconnected rigid structure: `room3` (a charging station) is not
reachable from `room1`. -/
def rigidDisc : Rigid :=
  { types := [("loc", ["room1", "room2", "room3"]), ("charging_stations", ["room3"])],
    adjacent := [("room1", "room2")] }

/-- A rigid structure whose graph contains no charging station at all. -/
def rigidNS : Rigid :=
  { types := [("robot", ["R1"]), ("loc", ["room1", "room2"]), ("charging_stations", [])],
    adjacent := [("room1", "room2")] }

/-- A state for the station-less graph: the robot sits at `room1`. -/
def stateNS : WState :=
  { loc := fun x => if x = "R1" then "room1" else "",
    cargo := fun _ => [],
    battery := fun x => if x = "R1" then 100 else 0 }

/-- A low-battery variant of the final-domain initial world (battery 10,
below the per-move cost of 20). -/
def low_battery_world : World :=
  { rigid := FWR.rigid_relations,
    st := { FWR.state0 with battery := fun x => if x = "R1" then 10 else 0 } }

/-- A variant of the final-domain initial world in which the robot
already carries `c1`. -/
def loaded_world : World :=
  { rigid := FWR.rigid_relations,
    st := { FWR.state0 with cargo := fun x => if x = "R1" then ["c1"] else [] } }

/-- The goal task of the simple-domain scenario: transport `c1` to
`room4`. -/
def c1_goal : List SWR.Task := [SWR.Task.transport "R1" "c1" "room4"]

/-- The plan the simple-domain scenario actually produces. -/
def c1_actual_plan : List SWR.Task :=
  [SWR.Task.move "R1" "room1" "room3", SWR.Task.pickup "R1" "c1",
   SWR.Task.recharge "R1", SWR.Task.move "R1" "room3" "room1",
   SWR.Task.move "R1" "room1" "room2", SWR.Task.move "R1" "room2" "room4",
   SWR.Task.drop "R1" "c1"]

namespace FWR

/-- The possible outcomes of invoking a Python task method: a returned
subtask list, the returned failure value `False`, or a raised
exception. -/
inductive MethodOutcome where
  | subtasks (ts : List Task)
  | fail
  | raise
deriving DecidableEq

/-- Whether a method call settled normally — returned a subtask list or
the failure value — rather than raising. -/
def MethodOutcome.settled : MethodOutcome → Bool
  | .subtasks _ => true
  | .fail => true
  | .raise => false

/-- View a non-raising result as an outcome. -/
def MethodOutcome.ofOption : Option (List Task) → MethodOutcome
  | some ts => .subtasks ts
  | none => .fail

namespace Exn

/-!
Exception-aware translation of the 16 declared methods of
`final_warehouse_robot.py`.  A Python method has three possible
behaviours: return a subtask list, return `False`, or raise.  The
raising sites are the graph queries and map/list indexing performed
outside (or inside the evaluation of) the guards: `distance` raises
whenever its path is unavailable (`len(False)` on an unreachable target,
or `KeyError` inside the BFS when the start is not a graph node) —
exactly the inputs on which the `distance` embedding above is `none` —
and `get_all_charging_station` raises `KeyError` when its argument is
not a graph node.  Methods whose bodies contain no such site cannot
raise and settle exactly as the state-passing translation above; they
are lifted unchanged.  The state object after the call is the input
state in every case: no method body assigns to the state before (or
after) any raising expression.
-/

/-- `transport_all1` cannot raise: its map accesses are guarded by the
membership test. -/
def transport_all1 (w : World) (R : String) (cdm : List (String × String)) :
    MethodOutcome × World :=
  (MethodOutcome.ofOption (FWR.transport_all1 w R cdm).1, w)

/-- `transport_all2` evaluates the sort key
`distance(state.loc[R], state.loc[c])` for every container `c` of the
map (Python's `list.sort` computes all keys up front), and raises as
soon as one of those distances is unavailable. -/
def transport_all2 (w : World) (R : String) (cdm : List (String × String)) :
    MethodOutcome × World :=
  if decide ((w.st.cargo R).length = 0) && decide (cdm.length > 0) then
    if (cdm.map (·.1)).all
        (fun c => (distance w.rigid (w.st.loc R) (w.st.loc c)).isSome) then
      (.subtasks [Task.transport_all_order R
          (sortByKey (fun c => (distance w.rigid (w.st.loc R) (w.st.loc c)).getD 0)
            (cdm.map (·.1)))
          cdm 0], w)
    else (.raise, w)
  else (.fail, w)

/-- `transport_all3` cannot raise. -/
def transport_all3 (w : World) (R : String) (cdm : List (String × String)) :
    MethodOutcome × World :=
  (MethodOutcome.ofOption (FWR.transport_all3 w R cdm).1, w)

/-- `transport_all_order1` indexes `containers[i]` (raising `IndexError`
when `i` is out of range — its guard only bounds `i` by the map's
length) and then pops that container from the map (raising `KeyError`
when it is not a key). -/
def transport_all_order1 (w : World) (R : String) (containers : List String)
    (cdm : List (String × String)) (i : Nat) : MethodOutcome × World :=
  if decide ((w.st.cargo R).length = 0) && decide (cdm.length > 0)
      && decide (i < cdm.length) then
    if decide (i < containers.length) then
      if (cdm.lookup (containers.getD i "")).isSome then
        (.subtasks [Task.transport R (containers.getD i "")
            ((cdm.lookup (containers.getD i "")).getD ""),
          Task.transport_all R (cdm.eraseP (fun p => p.1 == containers.getD i ""))], w)
      else (.raise, w)
    else (.raise, w)
  else (.fail, w)

/-- `transport_all_order2` cannot raise. -/
def transport_all_order2 (w : World) (R : String) (containers : List String)
    (cdm : List (String × String)) (i : Nat) : MethodOutcome × World :=
  (MethodOutcome.ofOption (FWR.transport_all_order2 w R containers cdm i).1, w)

/-- `transport1` cannot raise. -/
def transport1 (w : World) (R c dest : String) : MethodOutcome × World :=
  (MethodOutcome.ofOption (FWR.transport1 w R c dest).1, w)

/-- `transport2` cannot raise. -/
def transport2 (w : World) (R c dest : String) : MethodOutcome × World :=
  (MethodOutcome.ofOption (FWR.transport2 w R c dest).1, w)

/-- `transport3` cannot raise. -/
def transport3 (w : World) (R c dest : String) : MethodOutcome × World :=
  (MethodOutcome.ofOption (FWR.transport3 w R c dest).1, w)

/-- `travel_default` cannot raise. -/
def travel_default (w : World) (R dest : String) (excluded_stations : List String) :
    MethodOutcome × World :=
  (MethodOutcome.ofOption (FWR.travel_default w R dest excluded_stations).1, w)

/-- `travel1` cannot raise. -/
def travel1 (w : World) (R dest : String) (excluded_stations : List String) :
    MethodOutcome × World :=
  (MethodOutcome.ofOption (FWR.travel1 w R dest excluded_stations).1, w)

/-- `travel_with_wrapper1` cannot raise. -/
def travel_with_wrapper1 (w : World) (R dest : String) (i limit : Nat) :
    MethodOutcome × World :=
  (MethodOutcome.ofOption (FWR.travel_with_wrapper1 w R dest i limit).1, w)

/-- `travel_with_wrapper2` cannot raise. -/
def travel_with_wrapper2 (w : World) (R dest : String) (i limit : Nat) :
    MethodOutcome × World :=
  (MethodOutcome.ofOption (FWR.travel_with_wrapper2 w R dest i limit).1, w)

/-- `travel_with1` computes its battery estimate as soon as `i = 0`,
before its remaining guards, and raises when the estimate is
unavailable.  When the estimate is defined, the distance from the
robot's location to `dest` is defined, so the shortest path exists; the
unreachable `none` arm of the path match corresponds to Python
iterating over `False`, which would also raise. -/
def travel_with1 (w : World) (R dest : String) (i : Nat)
    (excluded_stations : List String) : MethodOutcome × World :=
  if decide (i = 0) then
    match travel_with1_estimate w.rigid w.st R dest with
    | none => (.raise, w)
    | some e =>
      if (w.st.loc R != dest) && is_a w.rigid dest "loc"
          && decide (w.st.battery R > e) then
        match get_shortest_path w.rigid (w.st.loc R) dest with
        | some path => (.subtasks (movesAlong R (w.st.loc R) path), w)
        | none => (.raise, w)
      else (.fail, w)
  else (.fail, w)

/-- `travel_with2` calls `get_all_charging_station(dest)` as soon as
`i > 0`, which raises `KeyError` when `dest` is not a node of the
graph. -/
def travel_with2 (w : World) (R dest : String) (i : Nat)
    (excluded_stations : List String) : MethodOutcome × World :=
  if decide (i > 0) then
    if ((buildGraph w.rigid.adjacent).lookup dest).isSome then
      (MethodOutcome.ofOption (FWR.travel_with2 w R dest i excluded_stations).1, w)
    else (.raise, w)
  else (.fail, w)

/-- The battery estimate of `travel_via1`:
`COST_PER_MOVE * (distance(station, dest) + distance(dest, closest station))`,
unavailable (Python raises) when either distance is, or when no charging
station is reachable from `dest`. -/
def travel_via1_estimate (rr : Rigid) (station dest : String) : Option Int :=
  match distance rr station dest, get_closest_charging_station rr dest with
  | some d1, some cs =>
    match distance rr dest cs with
    | some d2 => some (COST_PER_MOVE * ((d1 : Int) + (d2 : Int)))
    | none => none
  | _, _ => none

/-- `travel_via1` computes its battery estimate unconditionally, before
all of its guards, and raises whenever the estimate is unavailable —
even when `i = 0`. -/
def travel_via1 (w : World) (R dest station : String)
    (other_stations excluded_stations : List String) (i : Nat) :
    MethodOutcome × World :=
  match travel_via1_estimate w.rigid station dest with
  | none => (.raise, w)
  | some e =>
    if decide (i > 0) && is_a w.rigid station "loc" && decide (FULL_BATTERY > e) then
      (.subtasks [Task.travel_with R station (i - 1) (excluded_stations ++ [station]),
        Task.recharge R,
        Task.travel_with R dest 0 (excluded_stations ++ [station])], w)
    else (.fail, w)

/-- `travel_via2` cannot raise. -/
def travel_via2 (w : World) (R dest station : String)
    (other_stations excluded_stations : List String) (i : Nat) :
    MethodOutcome × World :=
  (MethodOutcome.ofOption
    (FWR.travel_via2 w R dest station other_stations excluded_stations i).1, w)

end Exn

end FWR

/-- A world in which the mapped container `c1` sits "at" the robot
identifier `R1` — not a graph node — while the robot's cargo is empty:
the sort key of `transport_all2` then evaluates
`distance("room1", "R1")`, whose path query returns `False`, so the
Python call raises `TypeError` in `len(False)`. -/
def crash_world : World :=
  { rigid := FWR.rigid_relations,
    st := { loc := fun x => if x = "R1" then "room1" else if x = "c1" then "R1" else "",
            cargo := fun _ => [],
            battery := fun x => if x = "R1" then 100 else 0 } }

/-- If the seek-plan method loop succeeds, some method's subtask list,
prepended to the rest of the network, leads the continuation to the
returned plan. -/
theorem tryMethods_eq_some {τ : Type} (k : List τ → Option (List τ)) (rest : List τ) :
    ∀ (ms : List (Option (List τ))) (p : List τ), tryMethods k rest ms = some p →
      ∃ sub, some sub ∈ ms ∧ k (sub ++ rest) = some p := by
  intro ms
  induction ms with
  | nil => intro p h; simp [tryMethods] at h
  | cons m ms ih =>
    intro p h
    match m with
    | none =>
      simp only [tryMethods] at h
      obtain ⟨sub, hmem, hk⟩ := ih p h
      exact ⟨sub, List.mem_cons_of_mem _ hmem, hk⟩
    | some sub0 =>
      simp only [tryMethods] at h
      cases hk : k (sub0 ++ rest) with
      | some p0 =>
        rw [hk] at h
        cases h
        exact ⟨sub0, List.mem_cons_self _ _, hk⟩
      | none =>
        rw [hk] at h
        obtain ⟨sub, hmem, hk2⟩ := ih p h
        exact ⟨sub, List.mem_cons_of_mem _ hmem, hk2⟩

/-- Soundness of the decomposition search: a returned plan replays
without failure from the state it was produced for. -/
theorem seekPlan_execPlan {τ : Type} (D : Domain τ) :
    ∀ (fuel : Nat) (w : World) (ts p : List τ), seekPlan D fuel w ts = some p →
      (execPlan D w p).isSome = true := by
  intro fuel
  induction fuel with
  | zero => intro w ts p h; simp [seekPlan] at h
  | succ fuel ih =>
    intro w ts p h
    match ts with
    | [] =>
      simp only [seekPlan] at h
      cases h
      simp [execPlan]
    | t :: rest =>
      simp only [seekPlan] at h
      by_cases hat : D.isAtomic t
      · rw [if_pos hat] at h
        split at h
        · exact absurd h (by simp)
        · rename_i w2 hop
          split at h
          · exact absurd h (by simp)
          · rename_i p2 hrec
            cases h
            simp only [execPlan, hop]
            exact ih w2 rest p2 hrec
      · rw [if_neg hat] at h
        obtain ⟨sub, _, hk⟩ := tryMethods_eq_some _ rest (D.methodResults w t) p h
        exact ih w (sub ++ rest) p hk

/-- A successful `move` implies the strict battery precondition held. -/
theorem move_some_battery (w : World) (R a b : String) (w2 : World)
    (h : FWR.move w R a b = some w2) : w.st.battery R > FWR.COST_PER_MOVE := by
  simp only [FWR.move] at h
  split at h
  · rename_i hc
    simp only [Bool.and_eq_true, decide_eq_true_eq] at hc
    exact hc.2
  · exact absurd h (by simp)

/-- A plan that replays without failure passes the per-move battery
check at every `move` step. -/
theorem execPlan_movesBatteryOk :
    ∀ (p : List FWR.Task) (w w2 : World), execPlan FWR.domain w p = some w2 →
      FWR.movesBatteryOk w p = true := by
  intro p
  induction p with
  | nil => intro w w2 h; simp [FWR.movesBatteryOk]
  | cons t ts ih =>
    intro w w2 h
    simp only [execPlan] at h
    cases hop : Domain.applyOp FWR.domain w t with
    | none => rw [hop] at h; simp at h
    | some w1 =>
      rw [hop] at h
      have hok := ih w1 w2 h
      have hopF : FWR.applyOp w t = some w1 := hop
      cases t with
      | move R a b =>
        have hb := move_some_battery w R a b w1 hopF
        simp [FWR.movesBatteryOk, hopF, hok, hb]
      | pickup R c => simp [FWR.movesBatteryOk, hopF, hok]
      | drop R c => simp [FWR.movesBatteryOk, hopF, hok]
      | recharge R => simp [FWR.movesBatteryOk, hopF, hok]
      | transport_all R cdm => simp [FWR.applyOp] at hopF
      | transport_all_order R cs cdm i => simp [FWR.applyOp] at hopF
      | transport R c dest => simp [FWR.applyOp] at hopF
      | travel R dest ex => simp [FWR.applyOp] at hopF
      | travel_with_wrapper R dest i limit => simp [FWR.applyOp] at hopF
      | travel_with R dest i ex => simp [FWR.applyOp] at hopF
      | travel_via R dest st os ex i => simp [FWR.applyOp] at hopF

/-- C1 counterexample: the claim says the plan for the concrete
4-location scenario starts with move(room1, room2); it does not.  In the
declared graph room1 is directly adjacent to room3 (and room2 is not
adjacent to room3), so the first action of the returned plan is
move(room1, room3). -/
theorem c1_counterexample :
    ¬ ((seekPlan SWR.domain 100 SWR.world0 c1_goal).bind List.head? =
       some (SWR.Task.move "R1" "room1" "room2")) := by decide

/-- C1 amended: for the concrete scenario (robot at room1 with battery
50, package at room3, per-move cost 25), the plan is exactly
move(room1, room3), pickup, recharge, move(room3, room1),
move(room1, room2), move(room2, room4), drop — the single recharge
sitting exactly where the projected battery would go non-positive
(before the move out of room3 at battery 25). -/
theorem c1_amended_plan :
    seekPlan SWR.domain 100 SWR.world0 c1_goal = some c1_actual_plan := by decide


/-- C2: a `move` whose robot has battery at most the per-move cost fails
(returning the failure value, so the planning state is unchanged), and
every plan returned by the search passes the strict battery check at
each of its `move` steps. -/
theorem c2_move_battery_guard :
    (∀ (w : World) (R start_loc end_loc : String),
        w.st.battery R ≤ FWR.COST_PER_MOVE → FWR.move w R start_loc end_loc = none) ∧
    (∀ (fuel : Nat) (w : World) (ts p : List FWR.Task),
        seekPlan FWR.domain fuel w ts = some p → FWR.movesBatteryOk w p = true) := by
  constructor
  · intro w R a b hb
    simp only [FWR.move]
    split
    · rename_i hc
      simp only [Bool.and_eq_true, decide_eq_true_eq] at hc
      exact absurd hc.2 (not_lt.mpr hb)
    · rfl
  · intro fuel w ts p h
    have hex := seekPlan_execPlan FWR.domain fuel w ts p h
    cases hw2 : execPlan FWR.domain w p with
    | none => rw [hw2] at hex; simp at hex
    | some w2 => exact execPlan_movesBatteryOk p w w2 hw2

/-- Witness for C2: at battery 10 the move fails; the concrete plan for
a single move task passes the battery check. -/
theorem c2_move_battery_guard_witness :
    FWR.move low_battery_world "R1" "room1" "room2" = none ∧
    FWR.movesBatteryOk FWR.world0 [FWR.Task.move "R1" "room1" "room2"] = true := by
  constructor
  · exact c2_move_battery_guard.1 low_battery_world "R1" "room1" "room2" (by decide)
  · exact c2_move_battery_guard.2 5 FWR.world0 [FWR.Task.move "R1" "room1" "room2"]
      [FWR.Task.move "R1" "room1" "room2"] (by decide)

/-- C3: the planner is a pure function of the state and the goal tasks —
two calls with identical inputs return identical plans. -/
theorem c3_plan_deterministic (fuel : Nat) (w1 w2 : World)
    (ts1 ts2 : List FWR.Task) (hw : w1 = w2) (ht : ts1 = ts2) :
    seekPlan FWR.domain fuel w1 ts1 = seekPlan FWR.domain fuel w2 ts2 := by
  rw [hw, ht]

/-- Witness for C3: two identical concrete calls coincide. -/
theorem c3_plan_deterministic_witness :
    seekPlan FWR.domain 5 FWR.world0 [FWR.Task.move "R1" "room1" "room2"] =
    seekPlan FWR.domain 5 FWR.world0 [FWR.Task.move "R1" "room1" "room2"] :=
  c3_plan_deterministic 5 FWR.world0 FWR.world0
    [FWR.Task.move "R1" "room1" "room2"] [FWR.Task.move "R1" "room1" "room2"] rfl rfl

/-- C4: each of the four operators leaves the rigid relations (the type
table and the adjacency table) unchanged, both on success (the returned
world) and on failure (`getD w` yields the input world). -/
theorem c4_operators_preserve_rigid (w : World) (R a b c : String) :
    ((FWR.move w R a b).getD w).rigid = w.rigid ∧
    ((FWR.pickup w R c).getD w).rigid = w.rigid ∧
    ((FWR.drop w R c).getD w).rigid = w.rigid ∧
    ((FWR.recharge w R).getD w).rigid = w.rigid := by
  refine ⟨?_, ?_, ?_, ?_⟩
  · simp only [FWR.move]; split <;> rfl
  · simp only [FWR.pickup]; split <;> rfl
  · simp only [FWR.drop]; split <;> rfl
  · simp only [FWR.recharge]; split <;> rfl

/-- C5: each operator preserves the per-robot cargo bound of one (on
failure `getD w` yields the unchanged input), and `pickup` fails
whenever the cargo list is non-empty. -/
theorem c5_cargo_capacity_invariant (w : World) (R a b c r : String)
    (h : (w.st.cargo r).length ≤ 1) :
    (((FWR.move w R a b).getD w).st.cargo r).length ≤ 1 ∧
    (((FWR.pickup w R c).getD w).st.cargo r).length ≤ 1 ∧
    (((FWR.drop w R c).getD w).st.cargo r).length ≤ 1 ∧
    (((FWR.recharge w R).getD w).st.cargo r).length ≤ 1 ∧
    (w.st.cargo R ≠ [] → FWR.pickup w R c = none) := by
  refine ⟨?_, ?_, ?_, ?_, ?_⟩
  · simp only [FWR.move]; split <;> exact h
  · simp only [FWR.pickup]
    split
    · rename_i hc
      simp only [Bool.and_eq_true, decide_eq_true_eq] at hc
      simp only [Option.getD_some]
      unfold upd
      by_cases hr : r = R
      · subst hr
        simp [List.length_append, hc.2]
      · simp only [if_neg hr]
        exact h
    · exact h
  · simp only [FWR.drop]
    split
    · simp only [Option.getD_some]
      unfold upd
      by_cases hr : r = R
      · subst hr
        simp only [if_pos rfl]
        exact le_trans ((List.erase_sublist _ _).length_le) h
      · simp only [if_neg hr]
        exact h
    · exact h
  · simp only [FWR.recharge]; split <;> exact h
  · intro hne
    simp only [FWR.pickup]
    split
    · rename_i hc
      simp only [Bool.and_eq_true, decide_eq_true_eq] at hc
      exact absurd (List.length_eq_zero.mp hc.2) hne
    · rfl

/-- Witness for C5: the invariant holds before and after a concrete
successful move, and `pickup` fails on a loaded robot. -/
theorem c5_cargo_capacity_invariant_witness :
    (((FWR.move FWR.world0 "R1" "room1" "room2").getD FWR.world0).st.cargo "R1").length ≤ 1 ∧
    FWR.pickup loaded_world "R1" "c2" = none := by
  constructor
  · exact (c5_cargo_capacity_invariant FWR.world0 "R1" "room1" "room2" "c1" "R1"
      (by decide)).1
  · exact (c5_cargo_capacity_invariant loaded_world "R1" "room1" "room2" "c2" "R1"
      (by decide)).2.2.2.2 (by decide)

/-- C6 counterexample: the claim says every declared method, invoked on
any state with any grounded arguments, either returns a list of
subtasks or a failure value.  `transport_all2`, invoked on a state whose
mapped container has an unreachable location, does neither: its sort key
evaluates `distance("room1", "R1")`, whose path query yields the
failure value, so the Python call raises `TypeError` in `len(False)` —
the call does not settle. -/
theorem c6_counterexample :
    ((FWR.Exn.transport_all2 crash_world "R1" [("c1", "room2")]).1).settled = false ∧
    (FWR.Exn.transport_all2 crash_world "R1" [("c1", "room2")]).1 =
      FWR.MethodOutcome.raise := by
  refine ⟨by decide, by decide⟩

/-- C6 amended: every declared method of the final domain, on any state
and any grounded arguments, returns a subtask list, returns the failure
value, or raises an exception (raising occurs at the graph queries and
map/list indexing evaluated outside the guards: the sort key of
`transport_all2`, the pre-guard battery estimates of `travel_with1` and
`travel_via1`, the station query of `travel_with2`, and the indexing of
`transport_all_order1`); in all three cases the state object after the
call is the input state — methods never mutate the state. -/
theorem c6_methods_settle_or_raise_state_unchanged (w : World) (R c dest station : String)
    (cdm : List (String × String)) (containers other_stations excluded_stations : List String)
    (i limit : Nat) :
    (FWR.Exn.transport_all1 w R cdm).2 = w ∧
    (FWR.Exn.transport_all2 w R cdm).2 = w ∧
    (FWR.Exn.transport_all3 w R cdm).2 = w ∧
    (FWR.Exn.transport_all_order1 w R containers cdm i).2 = w ∧
    (FWR.Exn.transport_all_order2 w R containers cdm i).2 = w ∧
    (FWR.Exn.transport1 w R c dest).2 = w ∧
    (FWR.Exn.transport2 w R c dest).2 = w ∧
    (FWR.Exn.transport3 w R c dest).2 = w ∧
    (FWR.Exn.travel_default w R dest excluded_stations).2 = w ∧
    (FWR.Exn.travel1 w R dest excluded_stations).2 = w ∧
    (FWR.Exn.travel_with_wrapper1 w R dest i limit).2 = w ∧
    (FWR.Exn.travel_with_wrapper2 w R dest i limit).2 = w ∧
    (FWR.Exn.travel_with1 w R dest i excluded_stations).2 = w ∧
    (FWR.Exn.travel_with2 w R dest i excluded_stations).2 = w ∧
    (FWR.Exn.travel_via1 w R dest station other_stations excluded_stations i).2 = w ∧
    (FWR.Exn.travel_via2 w R dest station other_stations excluded_stations i).2 = w := by
  refine ⟨?_, ?_, ?_, ?_, ?_, ?_, ?_, ?_, ?_, ?_, ?_, ?_, ?_, ?_, ?_, ?_⟩
  · rfl
  · simp only [FWR.Exn.transport_all2]; repeat' split
    all_goals rfl
  · rfl
  · simp only [FWR.Exn.transport_all_order1]; repeat' split
    all_goals rfl
  · rfl
  · rfl
  · rfl
  · rfl
  · rfl
  · rfl
  · rfl
  · rfl
  · simp only [FWR.Exn.travel_with1]; repeat' split
    all_goals rfl
  · simp only [FWR.Exn.travel_with2]; repeat' split
    all_goals rfl
  · simp only [FWR.Exn.travel_via1]; repeat' split
    all_goals rfl
  · rfl

/-- C8: `pickup` succeeds on any state whose robot has empty cargo,
regardless of where the container is (co-location is not a
precondition); afterwards the container is "at" the robot and is the
robot's entire cargo. -/
theorem c8_pickup_no_colocation (w : World) (R c : String)
    (h1 : is_a w.rigid R "robot" = true) (h2 : is_a w.rigid c "object" = true)
    (h3 : w.st.cargo R = []) :
    (FWR.pickup w R c).isSome = true ∧
    ((FWR.pickup w R c).getD w).st.loc c = R ∧
    ((FWR.pickup w R c).getD w).st.cargo R = [c] := by
  simp only [FWR.pickup, h1, h2, h3, Bool.and_self, List.length_nil, decide_True,
    Bool.and_true, if_true]
  refine ⟨rfl, ?_, ?_⟩
  · simp [upd]
  · simp [upd, h3]

/-- Witness for C8: in the final domain's initial state the robot is at
room1 and `c1` at room4, yet `pickup` succeeds. -/
theorem c8_pickup_no_colocation_witness :
    FWR.world0.st.loc "c1" ≠ FWR.world0.st.loc "R1" ∧
    (FWR.pickup FWR.world0 "R1" "c1").isSome = true ∧
    ((FWR.pickup FWR.world0 "R1" "c1").getD FWR.world0).st.loc "c1" = "R1" ∧
    ((FWR.pickup FWR.world0 "R1" "c1").getD FWR.world0).st.cargo "R1" = ["c1"] := by
  have h := c8_pickup_no_colocation FWR.world0 "R1" "c1" (by decide) (by decide) rfl
  exact ⟨by decide, h.1, h.2.1, h.2.2⟩

set_option maxRecDepth 10000 in
/-- C9: on the program's 9-room graph, `distance` agrees with the
shortest-path edge count for every pair of locations (including distance
0 on equal endpoints); on a disconnected pair `get_shortest_path`
returns the failure value and `distance` does not return (none); and the
battery estimate of `travel_with1` likewise does not return when no
charging station is reachable from the destination. -/
theorem c9_distance_and_partiality :
    (fwrLocs.all (fun l1 => fwrLocs.all (fun l2 =>
      distance FWR.rigid_relations l1 l2 ==
        specShortestDist FWR.rigid_relations.adjacent l1 l2 9))) = true ∧
    get_shortest_path rigidDisc "room1" "room3" = none ∧
    distance rigidDisc "room1" "room3" = none ∧
    get_closest_charging_station rigidNS "room2" = none ∧
    FWR.travel_with1_estimate rigidNS stateNS "R1" "room2" = none := by
  refine ⟨by decide, by decide, by decide, by decide, by decide⟩

set_option maxRecDepth 10000 in
/-- C10: for every location of the program's graph,
`get_all_charging_station` returns exactly the charging stations
reachable from it, excluding the location itself, in non-decreasing
order of shortest-path distance; `get_closest_charging_station` returns
the location itself when it is a station, otherwise a nearest reachable
station, and `none` when none is reachable. -/
theorem c10_charging_station_queries :
    (fwrLocs.all gacsCheck) = true ∧
    (fwrLocs.all gccsCheck) = true ∧
    get_all_charging_station rigidDisc "room1" = [] ∧
    get_closest_charging_station rigidDisc "room1" = none := by
  refine ⟨by decide, by decide, by decide, by decide⟩

/-- C7: a goal task already satisfied in the given state yields the
empty plan — a `transport` whose container is already at its destination
decomposes to nothing (its first two methods fail, the third returns the
empty network), and so does a `transport_all` with an empty
container-destination map; any fuel of at least 2 suffices. -/
theorem c7_satisfied_goal_empty_plan (fuel : Nat) (w : World) (R c dest : String)
    (h : w.st.loc c = dest) :
    seekPlan FWR.domain (fuel + 2) w [FWR.Task.transport R c dest] = some [] ∧
    seekPlan FWR.domain (fuel + 2) w [FWR.Task.transport_all R []] = some [] := by
  constructor
  · show seekPlan FWR.domain ((fuel + 1) + 1) w [FWR.Task.transport R c dest] = some []
    simp only [seekPlan, FWR.domain, FWR.isAtomic, FWR.methodResults, FWR.transport1,
      FWR.transport2, FWR.transport3, h, bne_self_eq_false, Bool.false_and, if_false,
      beq_self_eq_true, if_true, tryMethods]
    simp
  · show seekPlan FWR.domain ((fuel + 1) + 1) w [FWR.Task.transport_all R []] = some []
    rcases hc : w.st.cargo R with _ | ⟨c0, cs⟩ <;>
      simp [seekPlan, FWR.domain, FWR.isAtomic, FWR.methodResults, FWR.transport_all1,
        FWR.transport_all2, FWR.transport_all3, hc, tryMethods]

/-- Witness for C7: `c1` already sits at room4 in the initial state of
the final domain, so both satisfied goals plan to the empty sequence. -/
theorem c7_satisfied_goal_empty_plan_witness :
    seekPlan FWR.domain 2 FWR.world0 [FWR.Task.transport "R1" "c1" "room4"] = some [] ∧
    seekPlan FWR.domain 2 FWR.world0 [FWR.Task.transport_all "R1" []] = some [] :=
  c7_satisfied_goal_empty_plan 0 FWR.world0 "R1" "c1" "room4" (by decide)
